import Mathlib

/-!
Shallow embedding of `src/data_ingestor/main.py`, a linear forex
fetch-then-write pipeline:

* `ForexDataFetcher.fetch_data` (lines 18-29): HTTP GET, JSON parse,
  status/result check, field extraction into a `ForexData` record.
* `DatabaseConnection` (lines 31-79): connect, then a database
  existence check-then-create and a `CREATE TABLE IF NOT EXISTS`
  bootstrap, each wrapped in an exception handler that logs and
  swallows the error.
* `DatabaseWriter.write_data` (lines 91-99): parameterized insert plus
  commit, wrapped in an exception handler that logs and swallows.
* `ForexDataIngestionService` (lines 106-119): fetch then write;
  its `fetch_data_from_exchange` calls `fetch_data()` without the
  required currency-pair argument.
* the `__main__` block (lines 121-129).

Python exceptions are modelled by `PyError`; external nondeterminism
(network reply, database health) is modelled by an HTTP oracle
`String → HttpResponse` and a `DbBackend` record of success flags.
Observable side effects are collected in `Event` traces, and
logged-or-printed (swallowed) error reports in `List String` fields.
-/

set_option autoImplicit false

namespace DataIngestor

/-- JSON values as far as this program inspects them: strings, numbers
(modelled as rationals) and null. Python performs no type enforcement on
the dataclass fields, so extracted fields stay `JsonVal`. -/
inductive JsonVal where
  | str : String → JsonVal
  | num : Rat → JsonVal
  | null : JsonVal
  deriving DecidableEq

/-- A parsed JSON object body: key-value pairs, looked up with `List.lookup`. -/
abbrev JsonObj := List (String × JsonVal)

/-- Python exceptions that can escape or be caught in this program. -/
inductive PyError where
  /-- `response.json()` raised because the body is not valid JSON. -/
  | jsonDecodeError : PyError
  /-- `data[k]` raised `KeyError(k)`. -/
  | keyError : String → PyError
  /-- the explicit `raise Exception(...)` in `fetch_data` (line 24). -/
  | fetchError : String → PyError
  /-- calling a method with the wrong number of arguments. -/
  | typeError : String → PyError
  deriving DecidableEq

/-- An HTTP response: a status code and a body that either parses as a
JSON object (`some obj`) or does not parse as JSON (`none`). -/
structure HttpResponse where
  status_code : Nat
  body : Option JsonObj
  deriving DecidableEq

/-- The `ForexData` dataclass (lines 7-11). The annotations
`exchange_rate: float` and `timestamp: str` are not enforced at runtime,
so the fields hold whatever JSON values the response contained. -/
structure ForexData where
  currency_pair : String
  exchange_rate : JsonVal
  timestamp : JsonVal
  deriving DecidableEq

/-- Observable side effects: the outbound HTTP request and the
database statements executed through the cursor. -/
inductive Event where
  | httpGet : String → Event
  | connect : String → Event
  | checkDbExists : String → Event
  | createDb : String → Event
  | createForexTable : Event
  | insertRow : ForexData → Event
  | commit : Event
  deriving DecidableEq

/-- `ForexDataFetcher.__init__` stores the api key (lines 13-16). -/
structure ForexDataFetcher where
  api_key : String
  deriving DecidableEq

/-- `self.base_url` as built in `__init__` (line 16). -/
def ForexDataFetcher.base_url (f : ForexDataFetcher) : String :=
  "https://v6.exchangerate-api.com/v6/" ++ f.api_key ++ "/pair"

/-- Rendering of a JSON value inside the f-string of line 24. -/
def JsonVal.render : JsonVal → String
  | .str s => s
  | .num q => toString q
  | .null => "None"

/-- The message of the exception raised on line 24:
`data.get("error", "Unknown error")` interpolated into the fixed prefix. -/
def fetchFailMsg (data : JsonObj) : String :=
  "Failed to fetch data from ExchangeRate-API: " ++
    (match data.lookup "error" with
     | some v => v.render
     | none => "Unknown error")

/-- The body of `fetch_data` after the GET returned `response`
(lines 21-29): parse JSON, then
`if response.status_code != 200 or data["result"] != "success"` (the
`or` short-circuits, so with a non-200 status the `result` key is never
read), then extract `conversion_rate` and `time_last_update_utc`.
A missing key raises `KeyError`; no validation of the extracted values
is performed. -/
def ForexDataFetcher.fetch_data_resp (response : HttpResponse)
    (currency_pair : String) : Except PyError ForexData :=
  match response.body with
  | none => .error .jsonDecodeError
  | some data =>
    if response.status_code ≠ 200 then
      .error (.fetchError (fetchFailMsg data))
    else
      match data.lookup "result" with
      | none => .error (.keyError "result")
      | some r =>
        if r ≠ JsonVal.str "success" then
          .error (.fetchError (fetchFailMsg data))
        else
          match data.lookup "conversion_rate" with
          | none => .error (.keyError "conversion_rate")
          | some exchange_rate =>
            match data.lookup "time_last_update_utc" with
            | none => .error (.keyError "time_last_update_utc")
            | some timestamp =>
              .ok ⟨currency_pair, exchange_rate, timestamp⟩

/-- `fetch_data` (lines 18-29): build the url, issue the GET (recorded
as an `Event.httpGet`), then process the response. The network is the
oracle `http`. -/
def ForexDataFetcher.fetch_data (f : ForexDataFetcher)
    (http : String → HttpResponse) (currency_pair : String) :
    Except PyError ForexData × List Event :=
  let url := f.base_url ++ "/" ++ currency_pair
  (ForexDataFetcher.fetch_data_resp (http url) currency_pair,
   [Event.httpGet url])

/-- Python call semantics for the bound method `fetch_data`, which
declares exactly one required positional parameter `currency_pair`:
a call with any other number of arguments raises `TypeError` before the
method body runs (so before any HTTP request). -/
def ForexDataFetcher.fetch_data_args (f : ForexDataFetcher)
    (http : String → HttpResponse) (args : List String) :
    Except PyError ForexData × List Event :=
  match args with
  | [currency_pair] => f.fetch_data http currency_pair
  | [] => (.error (.typeError
      "fetch_data missing 1 required positional argument currency_pair"), [])
  | _ => (.error (.typeError "fetch_data takes 2 positional arguments"), [])

/-- The relational store visible to this program: which databases exist
in `pg_database`, which tables exist, and the committed rows of
`forex_data`. -/
structure PgState where
  databases : List String
  tables : List String
  rows : List ForexData
  deriving DecidableEq

/-- Success flags of the database backend for each fallible operation:
they decide whether `psycopg2` raises on that statement. -/
structure DbBackend where
  connectOk : Bool
  createDbOk : Bool
  createTableOk : Bool
  insertOk : Bool
  commitOk : Bool
  deriving DecidableEq

/-- Outcome of a swallowing database step: the store state, the
executed statements, and the error messages that were logged or printed
and then swallowed by the `except` block. -/
structure StepOut where
  state : PgState
  events : List Event
  reported : List String

/-- Add a name to a list set, keeping it unchanged when already present. -/
def insertNew (x : String) (xs : List String) : List String :=
  if xs.contains x then xs else x :: xs

/-- The `DatabaseConnection` object: whether the `connection`, `cursor`
and `db_name` attributes were ever set (they are set only when
`psycopg2.connect` succeeded, lines 35-44). -/
structure DatabaseConnection where
  hasConn : Bool
  db_name : Option String
  deriving DecidableEq

/-- `create_database` (lines 50-62): check `pg_database` for the name;
create the database and commit only when absent; any error is logged
and swallowed. -/
def DatabaseConnection.create_database (be : DbBackend) (db_name : String)
    (s : PgState) : StepOut :=
  if s.databases.contains db_name then
    { state := s, events := [.checkDbExists db_name], reported := [] }
  else if be.createDbOk then
    { state := { s with databases := insertNew db_name s.databases },
      events := [.checkDbExists db_name, .createDb db_name, .commit],
      reported := [] }
  else
    { state := s, events := [.checkDbExists db_name, .createDb db_name],
      reported := ["Error creating database"] }

/-- `create_forex_table` (lines 64-79): `CREATE TABLE IF NOT EXISTS
forex_data (...)` then commit; any error is logged and swallowed. -/
def DatabaseConnection.create_forex_table (be : DbBackend) (s : PgState) :
    StepOut :=
  if be.createTableOk then
    { state := { s with tables := insertNew "forex_data" s.tables },
      events := [.createForexTable, .commit], reported := [] }
  else
    { state := s, events := [.createForexTable],
      reported := ["Error creating table"] }

/-- The schema bootstrap the spec calls `ensureSchema`: the two calls
`self.create_database(); self.create_forex_table()` issued by
`DatabaseConnection.__init__` (lines 45-46), in that order. -/
def ensureSchema (be : DbBackend) (db_name : String) (s : PgState) : StepOut :=
  let o1 := DatabaseConnection.create_database be db_name s
  let o2 := DatabaseConnection.create_forex_table be o1.state
  { state := o2.state, events := o1.events ++ o2.events,
    reported := o1.reported ++ o2.reported }

/-- `DatabaseConnection.__init__` (lines 32-49): attempt to connect; on
success set the attributes and run the schema bootstrap; on failure the
exception is caught and printed, the constructor still returns an
object, and none of the attributes exist. -/
def DatabaseConnection.init (be : DbBackend) (db_name : String)
    (s : PgState) : DatabaseConnection × StepOut :=
  if be.connectOk then
    let o := ensureSchema be db_name s
    ({ hasConn := true, db_name := some db_name },
     { state := o.state, events := Event.connect db_name :: o.events,
       reported := o.reported })
  else
    ({ hasConn := false, db_name := none },
     { state := s, events := [Event.connect db_name],
       reported := ["Error while connecting to PostgreSQL"] })

/-- The `DatabaseWriter` object: whether `self.cursor`/`self.connection`
were copied from a connected `DatabaseConnection` (lines 82-89). -/
structure DatabaseWriter where
  hasCursor : Bool
  dbname : Option String
  deriving DecidableEq

/-- `DatabaseWriter.__init__` (lines 82-89): copy the connection
attributes; reading `dbconnection.db_name` raises `AttributeError` when
the connection had failed, which is caught and logged. -/
def DatabaseWriter.init (dbconnection : DatabaseConnection) :
    DatabaseWriter × List String :=
  match dbconnection.db_name with
  | some n => ({ hasCursor := dbconnection.hasConn, dbname := some n }, [])
  | none =>
    ({ hasCursor := false, dbname := none },
     ["Error while connecting to PostgreSQL"])

/-- Outcome of `write_data`: the value returned to the caller (always
`Except.ok ()`, because the whole body is inside `try/except`), the
committed store state, the executed statements, and the swallowed error
reports. -/
structure WriteOut where
  result : Except PyError Unit
  state : PgState
  events : List Event
  reported : List String

/-- `write_data` (lines 91-99): parameterized insert then commit inside
`try/except (Exception, psycopg2.Error)`. When the writer has no cursor
attribute, `self.cursor` raises `AttributeError` before any statement
executes; any insert or commit failure is logged/printed and swallowed;
in every case the method returns `None` to the caller. A row is
committed to the store only when both insert and commit succeed. -/
def DatabaseWriter.write_data (be : DbBackend) (w : DatabaseWriter)
    (data : ForexData) (s : PgState) : WriteOut :=
  if ¬ w.hasCursor then
    { result := .ok (), state := s, events := [],
      reported := ["AttributeError: cursor"] }
  else if ¬ be.insertOk then
    { result := .ok (), state := s, events := [.insertRow data],
      reported := ["Error while inserting data into PostgreSQL table"] }
  else if ¬ be.commitOk then
    { result := .ok (), state := s, events := [.insertRow data, .commit],
      reported := ["Error while inserting data into PostgreSQL table"] }
  else
    { result := .ok (), state := { s with rows := s.rows ++ [data] },
      events := [.insertRow data, .commit], reported := [] }

/-- `ForexDataIngestionService.__init__` (lines 107-109). -/
structure ForexDataIngestionService where
  data_fetcher : ForexDataFetcher
  database_writer : DatabaseWriter
  deriving DecidableEq

/-- `fetch_data_from_exchange` (lines 111-112): calls
`self.data_fetcher.fetch_data()` with an empty argument list although
`fetch_data` requires a currency pair. -/
def ForexDataIngestionService.fetch_data_from_exchange
    (svc : ForexDataIngestionService) (http : String → HttpResponse) :
    Except PyError ForexData × List Event :=
  svc.data_fetcher.fetch_data_args http []

/-- `write_data_to_database` (lines 114-115). -/
def ForexDataIngestionService.write_data_to_database
    (svc : ForexDataIngestionService) (be : DbBackend) (data : ForexData)
    (s : PgState) : WriteOut :=
  svc.database_writer.write_data be data s

/-- Outcome of one ingestion run or of the `__main__` block: the value
or uncaught exception, final store state, executed effects, swallowed
error reports. -/
structure RunOut where
  result : Except PyError Unit
  state : PgState
  events : List Event
  reported : List String

/-- `ingest_data` (lines 117-119): fetch via `fetch_data_from_exchange`,
then write. An exception from the fetch stage propagates uncaught (there
is no handler in the service). -/
def ForexDataIngestionService.ingest_data (svc : ForexDataIngestionService)
    (be : DbBackend) (http : String → HttpResponse) (s : PgState) : RunOut :=
  match svc.fetch_data_from_exchange http with
  | (.error e, evs) =>
    { result := .error e, state := s, events := evs, reported := [] }
  | (.ok data, evs) =>
    let w := svc.write_data_to_database be data s
    { result := w.result, state := w.state, events := evs ++ w.events,
      reported := w.reported }

/-- The `__main__` block (lines 121-129): build the fetcher, fetch
twice for the pair `"USD/GBP"` (lines 125 and 126; an uncaught fetch
exception aborts the run), construct the `DatabaseConnection` and the
`DatabaseWriter`, and write the first fetched record. -/
def main_run (be : DbBackend) (http : String → HttpResponse)
    (s : PgState) : RunOut :=
  let data_fetcher : ForexDataFetcher := { api_key := "9f372e5a2392105202948700" }
  match data_fetcher.fetch_data http "USD/GBP" with
  | (.error e, evs) =>
    { result := .error e, state := s, events := evs, reported := [] }
  | (.ok data, evs1) =>
    match data_fetcher.fetch_data http "USD/GBP" with
    | (.error e, evs2) =>
      { result := .error e, state := s, events := evs1 ++ evs2, reported := [] }
    | (.ok _, evs2) =>
      let co := DatabaseConnection.init be "postgres" s
      let wi := DatabaseWriter.init co.1
      let o2 := DatabaseWriter.write_data be wi.1 data co.2.state
      { result := o2.result, state := o2.state,
        events := evs1 ++ evs2 ++ co.2.events ++ o2.events,
        reported := co.2.reported ++ wi.2 ++ o2.reported }

/-! Concrete fixtures used by witnesses and counterexamples. -/

/-- A well-formed success response, as in the spec example scenario. -/
def respOk : HttpResponse :=
  { status_code := 200,
    body := some [("result", .str "success"), ("conversion_rate", .num 2),
                  ("time_last_update_utc",
                   .str "Mon, 01 Jan 2024 00:00:00 +0000")] }

/-- An HTTP oracle that always answers with `respOk`. -/
def httpOk : String → HttpResponse := fun _ => respOk

/-- A success response whose `conversion_rate` is negative. -/
def respNeg : HttpResponse :=
  { status_code := 200,
    body := some [("result", .str "success"),
                  ("conversion_rate", .num (-1)),
                  ("time_last_update_utc",
                   .str "Mon, 01 Jan 2024 00:00:00 +0000")] }

/-- A response whose body is not valid JSON, with a non-200 status. -/
def respNotJson : HttpResponse := { status_code := 500, body := none }

/-- A backend where every database operation succeeds. -/
def beAllOk : DbBackend :=
  { connectOk := true, createDbOk := true, createTableOk := true,
    insertOk := true, commitOk := true }

/-- A backend where the initial connection fails (database unreachable
or credentials rejected) and everything else would succeed. -/
def beConnFail : DbBackend :=
  { connectOk := false, createDbOk := true, createTableOk := true,
    insertOk := true, commitOk := true }

/-- A backend where the connection succeeds but the insert statement
fails. -/
def beInsertFail : DbBackend :=
  { connectOk := true, createDbOk := true, createTableOk := true,
    insertOk := false, commitOk := true }

/-- An empty initial store. -/
def pg0 : PgState := { databases := [], tables := [], rows := [] }

/-- Whether a JSON value is a strictly positive number. -/
def JsonVal.isPosNum : JsonVal → Bool
  | .num q => decide (0 < q)
  | _ => false

/-- Whether a `PyError` is the explicit fetch failure of line 24. -/
def PyError.isFetchErr : PyError → Bool
  | .fetchError _ => true
  | _ => false

/-! Helper lemmas about `insertNew`. -/

/-- Inserting a name makes the list contain it. -/
theorem mem_insertNew_self (x : String) (xs : List String) :
    x ∈ insertNew x xs := by
  unfold insertNew
  by_cases h : x ∈ xs <;> simp [h]

/-- Inserting a name twice is the same as inserting it once. -/
theorem insertNew_idem (x : String) (xs : List String) :
    insertNew x (insertNew x xs) = insertNew x xs := by
  unfold insertNew
  by_cases h : x ∈ xs <;> simp [h]

/-! Theorems about the embedded program. -/

/-- C1: for every provider response with HTTP status 200 and `result`
equal to `"success"` whose `conversion_rate` and `time_last_update_utc`
fields are present, `fetch_data` returns a record whose
`currency_pair` is the requested pair, whose `exchange_rate` is the
verbatim `conversion_rate` value, and whose `timestamp` is the verbatim
`time_last_update_utc` value (no conversion or reformatting). -/
theorem fetch_data_success_contract (f : ForexDataFetcher)
    (http : String → HttpResponse) (currency_pair : String)
    (data : JsonObj) (cr ts : JsonVal)
    (hb : (http (f.base_url ++ "/" ++ currency_pair)).body = some data)
    (hs : (http (f.base_url ++ "/" ++ currency_pair)).status_code = 200)
    (hr : data.lookup "result" = some (.str "success"))
    (hc : data.lookup "conversion_rate" = some cr)
    (ht : data.lookup "time_last_update_utc" = some ts) :
    (f.fetch_data http currency_pair).1 =
      .ok { currency_pair := currency_pair, exchange_rate := cr,
            timestamp := ts } := by
  simp [ForexDataFetcher.fetch_data, ForexDataFetcher.fetch_data_resp,
        hb, hs, hr, hc, ht]

/-- C1 witness: the success contract evaluated on the concrete fixture
response. -/
theorem fetch_data_success_contract_witness :
    (ForexDataFetcher.fetch_data ⟨"key"⟩ httpOk "USD/GBP").1 =
      .ok { currency_pair := "USD/GBP", exchange_rate := JsonVal.num 2,
            timestamp := JsonVal.str "Mon, 01 Jan 2024 00:00:00 +0000" } :=
  fetch_data_success_contract ⟨"key"⟩ httpOk "USD/GBP"
    [("result", .str "success"), ("conversion_rate", .num 2),
     ("time_last_update_utc", .str "Mon, 01 Jan 2024 00:00:00 +0000")]
    (JsonVal.num 2) (JsonVal.str "Mon, 01 Jan 2024 00:00:00 +0000")
    rfl rfl rfl rfl rfl

/-- C2 (refutation): `ingest_data` is not the claimed all-or-nothing
orchestrator. Every run fails with the missing-argument `TypeError`
raised when `fetch_data_from_exchange` calls `fetch_data()` with no
currency pair, before any HTTP request or database statement, and no
stage-tagged `IngestError` value exists anywhere on this path. -/
theorem ingest_data_always_type_error (svc : ForexDataIngestionService)
    (be : DbBackend) (http : String → HttpResponse) (s : PgState) :
    (svc.ingest_data be http s).result =
      .error (.typeError
        "fetch_data missing 1 required positional argument currency_pair") ∧
    (svc.ingest_data be http s).events = [] ∧
    (svc.ingest_data be http s).state = s ∧
    (svc.ingest_data be http s).reported = [] :=
  ⟨rfl, rfl, rfl, rfl⟩

/-- C3 (refutation): a failing insert is swallowed, not surfaced: with
a backend whose insert statement fails, `write_data` on a connected
writer still returns normally (`Except.ok ()`), persists nothing, and
only logs the error, so the caller cannot observe the failure. -/
theorem write_data_swallows_insert_failure (data : ForexData) (s : PgState) :
    (DatabaseWriter.write_data beInsertFail ⟨true, some "postgres"⟩
        data s).result = .ok () ∧
    (DatabaseWriter.write_data beInsertFail ⟨true, some "postgres"⟩
        data s).state = s ∧
    (DatabaseWriter.write_data beInsertFail ⟨true, some "postgres"⟩
        data s).reported =
      ["Error while inserting data into PostgreSQL table"] :=
  ⟨rfl, rfl, rfl⟩

/-- C4 (counterexample): for a non-JSON 500 response, `fetch_data`
fails with the JSON decoding error raised by `response.json()`, which
is not a `FetchError` carrying an upstream or generic message as the
claim requires. -/
theorem fetch_data_not_json_counterexample :
    (ForexDataFetcher.fetch_data ⟨"key"⟩ (fun _ => respNotJson)
        "USD/GBP").1 = .error .jsonDecodeError ∧
    PyError.isFetchErr .jsonDecodeError = false :=
  ⟨rfl, rfl⟩

/-- C4 (amended): `fetch_data` fails and performs no write on a non-200
status, on a `result` field that is missing or differs from
`"success"`, on a non-JSON body, and on a missing `conversion_rate` or
`time_last_update_utc` field, with the failure depending on the shape:
a non-200 status, or a 200 status whose `result` field is present and
differs from `"success"`, yields the `FetchError` whose message is the
response's `error` field when present and the generic unknown-error
text otherwise; a body that is not JSON yields the JSON decoding error;
a missing required field yields a `KeyError` naming it. A required
field that is present but malformed is not detected: the record is
returned with the field value verbatim. In every case the fetcher's
only side effect is the single outbound HTTP request (never a database
statement). -/
theorem fetch_data_failure_modes :
    (∀ (data : JsonObj) (currency_pair : String) (status : Nat),
      status ≠ 200 →
      ForexDataFetcher.fetch_data_resp ⟨status, some data⟩ currency_pair
        = .error (.fetchError (fetchFailMsg data))) ∧
    (∀ (data : JsonObj) (currency_pair : String) (r : JsonVal),
      data.lookup "result" = some r → r ≠ .str "success" →
      ForexDataFetcher.fetch_data_resp ⟨200, some data⟩ currency_pair
        = .error (.fetchError (fetchFailMsg data))) ∧
    (∀ (currency_pair : String) (status : Nat),
      ForexDataFetcher.fetch_data_resp ⟨status, none⟩ currency_pair
        = .error .jsonDecodeError) ∧
    (∀ (data : JsonObj) (currency_pair : String),
      data.lookup "result" = none →
      ForexDataFetcher.fetch_data_resp ⟨200, some data⟩ currency_pair
        = .error (.keyError "result")) ∧
    (∀ (data : JsonObj) (currency_pair : String),
      data.lookup "result" = some (.str "success") →
      data.lookup "conversion_rate" = none →
      ForexDataFetcher.fetch_data_resp ⟨200, some data⟩ currency_pair
        = .error (.keyError "conversion_rate")) ∧
    (∀ (data : JsonObj) (currency_pair : String) (cr : JsonVal),
      data.lookup "result" = some (.str "success") →
      data.lookup "conversion_rate" = some cr →
      data.lookup "time_last_update_utc" = none →
      ForexDataFetcher.fetch_data_resp ⟨200, some data⟩ currency_pair
        = .error (.keyError "time_last_update_utc")) ∧
    (∀ (data : JsonObj) (currency_pair : String) (cr ts : JsonVal),
      data.lookup "result" = some (.str "success") →
      data.lookup "conversion_rate" = some cr →
      data.lookup "time_last_update_utc" = some ts →
      ForexDataFetcher.fetch_data_resp ⟨200, some data⟩ currency_pair
        = .ok ⟨currency_pair, cr, ts⟩) ∧
    (∀ (f : ForexDataFetcher) (http : String → HttpResponse)
       (currency_pair : String) (e : Event),
      e ∈ (f.fetch_data http currency_pair).2 →
      ∃ url, e = .httpGet url) := by
  refine ⟨?_, ?_, ?_, ?_, ?_, ?_, ?_, ?_⟩
  · intro data currency_pair status hstat
    simp [ForexDataFetcher.fetch_data_resp, hstat]
  · intro data currency_pair r hr hne
    simp [ForexDataFetcher.fetch_data_resp, hr, hne]
  · intro currency_pair status
    rfl
  · intro data currency_pair hr
    simp [ForexDataFetcher.fetch_data_resp, hr]
  · intro data currency_pair hr hc
    simp [ForexDataFetcher.fetch_data_resp, hr, hc]
  · intro data currency_pair cr hr hc ht
    simp [ForexDataFetcher.fetch_data_resp, hr, hc, ht]
  · intro data currency_pair cr ts hr hc ht
    simp [ForexDataFetcher.fetch_data_resp, hr, hc, ht]
  · intro f http currency_pair e he
    simp [ForexDataFetcher.fetch_data] at he
    exact ⟨_, he⟩

/-- C4 witness: the amended failure modes evaluated on concrete
responses: the spec's own error scenario (`result="error"`,
`error="unsupported-code"`, HTTP 200), a 404 with no `error` field, a
200 body with no `result` field, a missing `conversion_rate`, a missing
`time_last_update_utc`, and a present-but-malformed (string-valued)
`conversion_rate` that is accepted verbatim. -/
theorem fetch_data_failure_modes_witness :
    ForexDataFetcher.fetch_data_resp
        ⟨200, some [("result", .str "error"),
                    ("error", .str "unsupported-code")]⟩ "USD/GBP"
      = .error (.fetchError
          "Failed to fetch data from ExchangeRate-API: unsupported-code") ∧
    ForexDataFetcher.fetch_data_resp ⟨404, some []⟩ "USD/GBP"
      = .error (.fetchError
          "Failed to fetch data from ExchangeRate-API: Unknown error") ∧
    ForexDataFetcher.fetch_data_resp ⟨200, some []⟩ "USD/GBP"
      = .error (.keyError "result") ∧
    ForexDataFetcher.fetch_data_resp
        ⟨200, some [("result", .str "success")]⟩ "USD/GBP"
      = .error (.keyError "conversion_rate") ∧
    ForexDataFetcher.fetch_data_resp
        ⟨200, some [("result", .str "success"),
                    ("conversion_rate", .num 2)]⟩ "USD/GBP"
      = .error (.keyError "time_last_update_utc") ∧
    ForexDataFetcher.fetch_data_resp
        ⟨200, some [("result", .str "success"),
                    ("conversion_rate", .str "not-a-number"),
                    ("time_last_update_utc", .str "t")]⟩ "USD/GBP"
      = .ok ⟨"USD/GBP", .str "not-a-number", .str "t"⟩ :=
  ⟨fetch_data_failure_modes.2.1 [("result", .str "error"),
      ("error", .str "unsupported-code")] "USD/GBP"
      (.str "error") rfl (by decide),
   fetch_data_failure_modes.1 [] "USD/GBP" 404 (by decide),
   fetch_data_failure_modes.2.2.2.1 [] "USD/GBP" rfl,
   fetch_data_failure_modes.2.2.2.2.1 [("result", .str "success")]
      "USD/GBP" rfl rfl,
   fetch_data_failure_modes.2.2.2.2.2.1
      [("result", .str "success"), ("conversion_rate", .num 2)]
      "USD/GBP" (.num 2) rfl rfl rfl,
   fetch_data_failure_modes.2.2.2.2.2.2.1
      [("result", .str "success"),
       ("conversion_rate", .str "not-a-number"),
       ("time_last_update_utc", .str "t")]
      "USD/GBP" (.str "not-a-number") (.str "t") rfl rfl rfl⟩

/-- C5 (refutation): with an unreachable database and a healthy
provider, the connection failure is printed and swallowed rather than
being fatal: `main_run` still constructs the `DatabaseWriter`, still
calls `write_data` (which hits the missing cursor, also swallowed) and
terminates normally with no uncaught error. -/
theorem main_run_proceeds_after_connect_failure (s : PgState) :
    (main_run beConnFail httpOk s).result = .ok () ∧
    (main_run beConnFail httpOk s).state = s ∧
    (main_run beConnFail httpOk s).reported =
      ["Error while connecting to PostgreSQL",
       "Error while connecting to PostgreSQL",
       "AttributeError: cursor"] :=
  ⟨rfl, rfl, rfl⟩

/-- C6: the schema bootstrap is idempotent: if a first run of
`ensureSchema` (the `create_database(); create_forex_table()` sequence
of `DatabaseConnection.__init__`) reports no error, a second run from
the resulting state reports no error either and leaves the state
exactly as the first run left it. -/
theorem ensureSchema_idempotent (be : DbBackend) (db_name : String)
    (s : PgState) (h : (ensureSchema be db_name s).reported = []) :
    (ensureSchema be db_name (ensureSchema be db_name s).state).reported
        = [] ∧
    (ensureSchema be db_name (ensureSchema be db_name s).state).state
        = (ensureSchema be db_name s).state := by
  unfold ensureSchema DatabaseConnection.create_database
    DatabaseConnection.create_forex_table at h ⊢
  by_cases hdb : db_name ∈ s.databases <;>
    by_cases hcd : be.createDbOk <;>
      by_cases hct : be.createTableOk <;>
        simp [hdb, hcd, hct, mem_insertNew_self, insertNew_idem] at h ⊢

/-- C6 witness: the bootstrap run twice from the empty store with a
healthy backend. -/
theorem ensureSchema_idempotent_witness :
    (ensureSchema beAllOk "postgres" pg0).reported = [] ∧
    ((ensureSchema beAllOk "postgres"
        (ensureSchema beAllOk "postgres" pg0).state).reported = [] ∧
     (ensureSchema beAllOk "postgres"
        (ensureSchema beAllOk "postgres" pg0).state).state
        = (ensureSchema beAllOk "postgres" pg0).state) :=
  ⟨rfl, ensureSchema_idempotent beAllOk "postgres" pg0 rfl⟩

/-- C7 (counterexample): a 200 response with `result="success"` and a
negative `conversion_rate` does yield a record, and its exchange rate
is not a positive number, refuting the claim that such a response never
yields a record. -/
theorem fetch_data_negative_rate_counterexample :
    ForexDataFetcher.fetch_data_resp respNeg "USD/GBP"
      = .ok ⟨"USD/GBP", .num (-1),
             .str "Mon, 01 Jan 2024 00:00:00 +0000"⟩ ∧
    JsonVal.isPosNum (.num (-1)) = false :=
  ⟨rfl, by decide⟩

/-- C7 (amended): `fetch_data` performs no validation of
`conversion_rate`: whenever it returns a record, the record's
`exchange_rate` is verbatim the `conversion_rate` field of the JSON
body, so the invariant `exchangeRate > 0` holds exactly when the
provider sent a positive number. -/
theorem fetch_data_rate_verbatim (response : HttpResponse)
    (currency_pair : String) (d : ForexData)
    (h : ForexDataFetcher.fetch_data_resp response currency_pair = .ok d) :
    ∃ data, response.body = some data ∧
      data.lookup "conversion_rate" = some d.exchange_rate ∧
      (JsonVal.isPosNum d.exchange_rate = true ↔
        ∃ q : Rat, d.exchange_rate = .num q ∧ 0 < q) := by
  unfold ForexDataFetcher.fetch_data_resp at h
  cases hb : response.body with
  | none => rw [hb] at h; cases h
  | some data =>
    rw [hb] at h
    dsimp only at h
    refine ⟨data, rfl, ?_, ?_⟩
    · by_cases hst : response.status_code ≠ 200
      · rw [if_pos hst] at h; cases h
      · rw [if_neg hst] at h
        cases hr : data.lookup "result" with
        | none => rw [hr] at h; cases h
        | some r =>
          rw [hr] at h
          dsimp only at h
          by_cases hrs : r ≠ JsonVal.str "success"
          · rw [if_pos hrs] at h; cases h
          · rw [if_neg hrs] at h
            cases hcr : data.lookup "conversion_rate" with
            | none => rw [hcr] at h; cases h
            | some er =>
              rw [hcr] at h
              dsimp only at h
              cases hts : data.lookup "time_last_update_utc" with
              | none => rw [hts] at h; cases h
              | some t =>
                rw [hts] at h
                dsimp only at h
                cases h
                rfl
    · cases hx : d.exchange_rate <;> simp [JsonVal.isPosNum, hx]

/-- C7 witness: the verbatim-rate property evaluated on the concrete
success fixture. -/
theorem fetch_data_rate_verbatim_witness :
    ∃ data, respOk.body = some data ∧
      data.lookup "conversion_rate" = some (JsonVal.num 2) ∧
      (JsonVal.isPosNum (JsonVal.num 2) = true ↔
        ∃ q : Rat, JsonVal.num 2 = .num q ∧ 0 < q) :=
  fetch_data_rate_verbatim respOk "USD/GBP"
    ⟨"USD/GBP", JsonVal.num 2, JsonVal.str "Mon, 01 Jan 2024 00:00:00 +0000"⟩
    rfl

/-- C8: every call of `fetch_data_from_exchange` fails with the
missing-argument `TypeError` before any HTTP request (its event trace is
empty) and never produces a record; consequently `ingest_data` fails the
same way with no HTTP request and no database statement. -/
theorem fetch_data_from_exchange_always_type_error :
    (∀ (svc : ForexDataIngestionService) (http : String → HttpResponse),
      svc.fetch_data_from_exchange http =
        (.error (.typeError
          "fetch_data missing 1 required positional argument currency_pair"),
         [])) ∧
    (∀ (svc : ForexDataIngestionService) (be : DbBackend)
       (http : String → HttpResponse) (s : PgState),
      (svc.ingest_data be http s).result =
        .error (.typeError
          "fetch_data missing 1 required positional argument currency_pair") ∧
      (svc.ingest_data be http s).events = []) :=
  ⟨fun _ _ => rfl, fun _ _ _ _ => ⟨rfl, rfl⟩⟩

/-- C9: scoped to the program's construction path (a `DatabaseWriter`
built from a `DatabaseConnection`), if the insert statement of
`write_data` executes, then the database existence check and the
`CREATE TABLE IF NOT EXISTS` statement were already executed during the
construction of that connection, whose event trace precedes the write
trace. -/
theorem bootstrap_precedes_insert (be : DbBackend) (db_name : String)
    (s : PgState) (data : ForexData)
    (h : Event.insertRow data ∈
      (DatabaseWriter.write_data be
        (DatabaseWriter.init (DatabaseConnection.init be db_name s).1).1
        data (DatabaseConnection.init be db_name s).2.state).events) :
    Event.checkDbExists db_name ∈
        (DatabaseConnection.init be db_name s).2.events ∧
    Event.createForexTable ∈
        (DatabaseConnection.init be db_name s).2.events := by
  by_cases hc : be.connectOk
  · constructor <;>
    · unfold DatabaseConnection.init ensureSchema
        DatabaseConnection.create_database
        DatabaseConnection.create_forex_table
      by_cases hdb : db_name ∈ s.databases <;>
        by_cases hcd : be.createDbOk <;>
          by_cases hct : be.createTableOk <;>
            simp [hc, hdb, hcd, hct]
  · exfalso
    unfold DatabaseConnection.init DatabaseWriter.init
      DatabaseWriter.write_data at h
    simp [hc] at h

/-- C9 witness: the bootstrap-precedes-insert property evaluated on the
all-healthy backend from the empty store. -/
theorem bootstrap_precedes_insert_witness :
    (Event.insertRow ⟨"USD/GBP", .num 2, .str "t"⟩ ∈
      (DatabaseWriter.write_data beAllOk
        (DatabaseWriter.init
          (DatabaseConnection.init beAllOk "postgres" pg0).1).1
        ⟨"USD/GBP", .num 2, .str "t"⟩
        (DatabaseConnection.init beAllOk "postgres" pg0).2.state).events) ∧
    (Event.checkDbExists "postgres" ∈
        (DatabaseConnection.init beAllOk "postgres" pg0).2.events ∧
     Event.createForexTable ∈
        (DatabaseConnection.init beAllOk "postgres" pg0).2.events) :=
  ⟨by decide,
   bootstrap_precedes_insert beAllOk "postgres" pg0
     ⟨"USD/GBP", .num 2, .str "t"⟩ (by decide)⟩

/-- C10: `fetch_data` parses the body as JSON before inspecting the
status code: for every status code, a response whose body is not valid
JSON fails with the JSON decoding error, so the status/result check of
the following line is never reached for such responses. -/
theorem fetch_data_parses_json_before_status (status : Nat)
    (currency_pair : String) (f : ForexDataFetcher) :
    (f.fetch_data (fun _ => { status_code := status, body := none })
        currency_pair).1 = .error .jsonDecodeError :=
  rfl

end DataIngestor
